import Mathlib

/-!
Verification development for the entropy-based random number generator
(files `entropy_rng.py` and `entropy_rng_gui.py`).

The Python code is shallowly embedded:
- byte strings are `List Nat` (each entry a byte value),
- unbounded Python integers are `Nat`, with `% 2 ^ 32` where the code reduces,
- wall-clock seconds (Python floats from `time.time()`) are modelled as exact
  rationals `ℚ`,
- nanosecond timestamps (`time.time_ns()`) are `Nat`,
- `hashlib.sha256` is given by a full executable SHA-256 (FIPS 180-4)
  implementation over byte lists; the incremental `hasher.update` calls of the
  source are modelled as concatenation of the fed byte strings,
- `collections.deque(maxlen=2000)` is a list with oldest-first eviction on
  append (`deque_append`),
- raising `ValueError` is modelled as returning `Except.error` with a value of
  `GenError` naming the raise site.

Within a single generator call the clock is modelled as one fixed reading:
every occurrence of `time.time_ns()` during the call yields the parameter
`ts`, and every occurrence of `time.time()` yields the parameter `now`.
-/

/-! ## SHA-256 (FIPS 180-4), executable, over byte lists -/

/-- Right rotation of a 32-bit word (input assumed `< 2 ^ 32`). -/
def rotr (n x : Nat) : Nat := ((x >>> n) ||| (x <<< (32 - n))) % 2 ^ 32

/-- SHA-256 big sigma 0. -/
def bsig0 (x : Nat) : Nat := rotr 2 x ^^^ rotr 13 x ^^^ rotr 22 x

/-- SHA-256 big sigma 1. -/
def bsig1 (x : Nat) : Nat := rotr 6 x ^^^ rotr 11 x ^^^ rotr 25 x

/-- SHA-256 small sigma 0. -/
def ssig0 (x : Nat) : Nat := rotr 7 x ^^^ rotr 18 x ^^^ (x >>> 3)

/-- SHA-256 small sigma 1. -/
def ssig1 (x : Nat) : Nat := rotr 17 x ^^^ rotr 19 x ^^^ (x >>> 10)

/-- SHA-256 choice function; 32-bit complement is xor with the all-ones word. -/
def ch (x y z : Nat) : Nat := (x &&& y) ^^^ ((x ^^^ 0xFFFFFFFF) &&& z)

/-- SHA-256 majority function. -/
def maj (x y z : Nat) : Nat := (x &&& y) ^^^ (x &&& z) ^^^ (y &&& z)

/-- SHA-256 round constants (fractional parts of cube roots of the first 64 primes). -/
def K : List Nat := [
  1116352408, 1899447441, 3049323471, 3921009573, 961987163, 1508970993, 2453635748, 2870763221,
  3624381080, 310598401, 607225278, 1426881987, 1925078388, 2162078206, 2614888103, 3248222580,
  3835390401, 4022224774, 264347078, 604807628, 770255983, 1249150122, 1555081692, 1996064986,
  2554220882, 2821834349, 2952996808, 3210313671, 3336571891, 3584528711, 113926993, 338241895,
  666307205, 773529912, 1294757372, 1396182291, 1695183700, 1986661051, 2177026350, 2456956037,
  2730485921, 2820302411, 3259730800, 3345764771, 3516065817, 3600352804, 4094571909, 275423344,
  430227734, 506948616, 659060556, 883997877, 958139571, 1322822218, 1537002063, 1747873779,
  1955562222, 2024104815, 2227730452, 2361852424, 2428436474, 2756734187, 3204031479, 3329325298]

/-- SHA-256 initial hash value. -/
def H0 : List Nat := [1779033703, 3144134277, 1013904242, 2773480762, 1359893119, 2600822924, 528734635, 1541459225]

/-- Big-endian 4-byte encoding of a 32-bit value, as in `int.to_bytes(4, 'big')`.
For inputs `< 2 ^ 32` this agrees with Python (which raises `OverflowError`
above that bound; all pool samples in the source are below it). -/
def toBytes4BE (n : Nat) : List Nat :=
  [(n >>> 24) % 256, (n >>> 16) % 256, (n >>> 8) % 256, n % 256]

/-- Big-endian 8-byte encoding of a 64-bit value (used for the SHA-256 length pad). -/
def toBytes8BE (n : Nat) : List Nat :=
  [(n >>> 56) % 256, (n >>> 48) % 256, (n >>> 40) % 256, (n >>> 32) % 256,
   (n >>> 24) % 256, (n >>> 16) % 256, (n >>> 8) % 256, n % 256]

/-- Big-endian interpretation of a byte list, as in `int.from_bytes(b, 'big')`. -/
def int_from_bytes_be (l : List Nat) : Nat := l.foldl (fun a b => a * 256 + b) 0

/-- ASCII bytes of the decimal representation of a natural number,
as in `str(n).encode()`. -/
def decimalBytes (n : Nat) : List Nat := (Nat.toDigits 10 n).map Char.toNat

/-- SHA-256 padding for a message of `len` bytes: the byte `0x80`, zero bytes
up to 56 mod 64, then the bit length as 8 bytes big-endian. -/
def sha256pad (len : Nat) : List Nat :=
  0x80 :: List.replicate ((64 - (len + 9) % 64) % 64) 0 ++ toBytes8BE (len * 8)

/-- Group a byte list into big-endian 32-bit words (four bytes per word). -/
def bytesToWords : List Nat → List Nat
  | b0 :: b1 :: b2 :: b3 :: rest =>
      (((b0 * 256 + b1) * 256 + b2) * 256 + b3) :: bytesToWords rest
  | _ => []

/-- Extend a 16-word message block by `n` further schedule words. -/
def extendW (ws : List Nat) : Nat → List Nat
  | 0 => ws
  | Nat.succ n =>
      let t := ws.length
      extendW (ws ++ [(ssig1 (ws.getD (t - 2) 0) + ws.getD (t - 7) 0 +
                       ssig0 (ws.getD (t - 15) 0) + ws.getD (t - 16) 0) % 2 ^ 32]) n

/-- One SHA-256 compression round on the eight-word working state. -/
def compressRound (st : List Nat) (kw : Nat × Nat) : List Nat :=
  match st with
  | [a, b, c, d, e, f, g, hh] =>
      let t1 := (hh + bsig1 e + ch e f g + kw.1 + kw.2) % 2 ^ 32
      let t2 := (bsig0 a + maj a b c) % 2 ^ 32
      [(t1 + t2) % 2 ^ 32, a, b, c, (d + t1) % 2 ^ 32, e, f, g]
  | other => other

/-- Process one padded 64-byte block into the running hash value. -/
def processBlock (h : List Nat) (block : List Nat) : List Nat :=
  let w := extendW (bytesToWords block) 48
  let st := (K.zip w).foldl compressRound h
  List.zipWith (fun x y => (x + y) % 2 ^ 32) h st

/-- Fold `processBlock` over the 64-byte blocks of a padded message. -/
def sha256loop (h : List Nat) (msg : List Nat) : List Nat :=
  match msg with
  | [] => h
  | m :: rest => sha256loop (processBlock h ((m :: rest).take 64)) ((m :: rest).drop 64)
termination_by msg.length
decreasing_by simp [List.length_drop]; omega

/-- SHA-256 digest (32 bytes) of a byte list, as in `hashlib.sha256(m).digest()`. -/
def sha256 (msg : List Nat) : List Nat :=
  ((sha256loop H0 (msg ++ sha256pad msg.length)).map toBytes4BE).flatten

/-! ## Bounded pools: `collections.deque(maxlen=cap)` -/

/-- Append to a `collections.deque(maxlen=cap)`: when the buffer already holds
`cap` entries the oldest (leftmost) entries are evicted to make room. -/
def deque_append (cap : Nat) (xs : List Nat) (v : Nat) : List Nat :=
  if xs.length < cap then xs ++ [v]
  else (xs ++ [v]).drop (xs.length + 1 - cap)

/-- The suffix of the last `cap` entries of a list. -/
def lastN (cap : Nat) (l : List Nat) : List Nat := l.drop (l.length - cap)

/-! ## The CLI collector (`entropy_rng.py`, class `EntropyCollector`) -/

/-- State of `entropy_rng.py:EntropyCollector`.  The mouse listener and the
CPU thread are producers whose effects appear as calls of the step functions
below; the `entropy_queue` is retained as a list of tagged samples. -/
structure EntropyCollector where
  mouse_entropy : List Nat
  cpu_entropy : List Nat
  collecting : Bool
  entropy_queue : List (String × Nat)
  collection_start_time : Option ℚ
  mouse_movement_start : Option ℚ
  last_mouse_activity : Option ℚ
  total_active_movement_time : ℚ
  mouse_activity_timeout : ℚ
deriving DecidableEq

/-- `EntropyCollector.__init__`. -/
def initCollector : EntropyCollector :=
  { mouse_entropy := []
    cpu_entropy := []
    collecting := false
    entropy_queue := []
    collection_start_time := none
    mouse_movement_start := none
    last_mouse_activity := none
    total_active_movement_time := 0
    mouse_activity_timeout := 2 }

/-- `EntropyCollector.on_mouse_move(x, y)`, with the two clock reads passed in:
`timestamp` is the `time.time_ns()` reading and `now` the `time.time()`
reading of this event. -/
def on_mouse_move (c : EntropyCollector) (x y : Nat) (timestamp : Nat) (now : ℚ) :
    EntropyCollector :=
  if c.collecting = true then
    let total :=
      match c.last_mouse_activity with
      | some prior =>
          if now - prior ≤ c.mouse_activity_timeout then
            c.total_active_movement_time + (now - prior)
          else c.total_active_movement_time
      | none => c.total_active_movement_time
    let movement_start :=
      match c.mouse_movement_start with
      | none => some now
      | some s => some s
    let entropy_data := (x ^^^ y ^^^ (timestamp &&& 0xFFFFFFFF)) &&& 0xFFFF
    let entropy_data :=
      if 0 < c.mouse_entropy.length then entropy_data ^^^ ((timestamp % 1000000) * 1000)
      else entropy_data
    { c with total_active_movement_time := total
             last_mouse_activity := some now
             mouse_movement_start := movement_start
             mouse_entropy := deque_append 2000 c.mouse_entropy entropy_data
             entropy_queue := c.entropy_queue ++ [("mouse", entropy_data)] }
  else c

/-- One successful tick of `EntropyCollector.collect_cpu_entropy` while
collecting: the CPU-time and process readings are inputs, mixed and reduced
modulo `2 ^ 32` as in the source (the multiplications by 1000000 of the float
readings are folded into the integer inputs). -/
def collect_cpu_entropy_tick (c : EntropyCollector)
    (user_us system_us idle_us processes timestamp : Nat) : EntropyCollector :=
  if c.collecting = true then
    let entropy_data := (user_us + system_us + idle_us + processes * timestamp) % 2 ^ 32
    { c with cpu_entropy := deque_append 2000 c.cpu_entropy entropy_data,
             entropy_queue := c.entropy_queue ++ [("cpu", entropy_data)] }
  else c

/-- `EntropyCollector.start_collection` (thread and listener spawning is
outside the state model). -/
def start_collection (c : EntropyCollector) (now : ℚ) : EntropyCollector :=
  { c with collecting := true
           collection_start_time := some now
           mouse_movement_start := none
           last_mouse_activity := none
           total_active_movement_time := 0 }

/-- `EntropyCollector.stop_collection` (stopping the mouse listener has no
modelled state effect). -/
def stop_collection (c : EntropyCollector) : EntropyCollector :=
  { c with collecting := false }

/-- `EntropyCollector.get_entropy_pool`: mouse samples then CPU samples. -/
def get_entropy_pool (c : EntropyCollector) : List Nat :=
  c.mouse_entropy ++ c.cpu_entropy

/-- `EntropyCollector.get_mouse_movement_duration`, at clock reading `now`. -/
def get_mouse_movement_duration (c : EntropyCollector) (now : ℚ) : ℚ :=
  match c.last_mouse_activity with
  | none => 0
  | some last =>
      let accumulated_time := c.total_active_movement_time
      if now - last ≤ c.mouse_activity_timeout then accumulated_time + (now - last)
      else accumulated_time

/-- `EntropyCollector.is_mouse_currently_active`, at clock reading `now`. -/
def is_mouse_currently_active (c : EntropyCollector) (now : ℚ) : Bool :=
  match c.last_mouse_activity with
  | none => false
  | some last => decide (now - last ≤ c.mouse_activity_timeout)

/-- `EntropyCollector.has_sufficient_entropy(required_duration, min_mouse_samples)`
(source defaults: 30 and 300). -/
def has_sufficient_entropy (c : EntropyCollector) (now : ℚ)
    (required_duration : ℚ) (min_mouse_samples : Nat) : Bool :=
  decide (required_duration ≤ get_mouse_movement_duration c now) &&
  decide (min_mouse_samples ≤ c.mouse_entropy.length)

/-! ## The CLI generator (`entropy_rng.py`, class `EntropyRNG`) -/

/-- The two `raise ValueError` sites of the generator methods.  Both are the
recoverable `InsufficientEntropy` condition of the design: the first fires
when the sufficiency policy is false, the second when the concatenated pool is
below the minimum total sample count. -/
inductive GenError
  | insufficientEntropy
  | insufficientTotalEntropy
deriving DecidableEq

/-- State of `entropy_rng.py:EntropyRNG`. -/
structure EntropyRNG where
  collector : EntropyCollector
  generated_numbers : List Nat
deriving DecidableEq

/-- `EntropyRNG.generate_random_number(min_entropy_samples)` (source default
300).  `now` is the `time.time()` reading used by the sufficiency check and
`ts` the `time.time_ns()` reading fed to the hash. -/
def generate_random_number (rng : EntropyRNG) (now : ℚ) (ts : Nat)
    (min_entropy_samples : Nat) : Except GenError (Nat × EntropyRNG) :=
  if ¬ has_sufficient_entropy rng.collector now 30 300 = true then
    .error .insufficientEntropy
  else
    let entropy_pool := get_entropy_pool rng.collector
    if entropy_pool.length < min_entropy_samples then
      .error .insufficientTotalEntropy
    else
      let data := decimalBytes ts
      let data := entropy_pool.foldl (fun h sample => h ++ toBytes4BE sample) data
      let hash_bytes := sha256 data
      let random_int := int_from_bytes_be (hash_bytes.take 4)
      let result := random_int % 2048
      .ok (result, { rng with generated_numbers := rng.generated_numbers ++ [result] })

/-- `EntropyRNG.get_entropy_status`: the returned dict, as a key-value list. -/
def get_entropy_status (rng : EntropyRNG) : List (String × Nat) :=
  let mouse_count := rng.collector.mouse_entropy.length
  let cpu_count := rng.collector.cpu_entropy.length
  [("mouse_samples", mouse_count),
   ("cpu_samples", cpu_count),
   ("total_samples", mouse_count + cpu_count)]

/-! ## The GUI collector (`entropy_rng_gui.py`, class `EntropyCollector`) -/

/-- State of `entropy_rng_gui.py:EntropyCollector`.  The audio stream handle is
kept as an `Option` (None until the audio thread opens the stream); the ghost
counter `audio_stream_release_count` records how many times the
`stop_stream` and `close` release path has been executed on the handle. -/
structure GuiEntropyCollector where
  mouse_entropy : List Nat
  cpu_entropy : List Nat
  audio_entropy : List Nat
  collecting : Bool
  entropy_queue : List (String × Nat)
  collection_start_time : Option ℚ
  mouse_movement_start : Option ℚ
  last_mouse_activity : Option ℚ
  total_active_movement_time : ℚ
  mouse_activity_timeout : ℚ
  audio_recording : Bool
  audio_stream : Option Unit
  audio_stream_release_count : Nat
deriving DecidableEq

/-- `entropy_rng_gui.py:EntropyCollector.__init__`. -/
def initGuiCollector : GuiEntropyCollector :=
  { mouse_entropy := []
    cpu_entropy := []
    audio_entropy := []
    collecting := false
    entropy_queue := []
    collection_start_time := none
    mouse_movement_start := none
    last_mouse_activity := none
    total_active_movement_time := 0
    mouse_activity_timeout := 2
    audio_recording := false
    audio_stream := none
    audio_stream_release_count := 0 }

/-- `entropy_rng_gui.py:EntropyCollector.start_collection(include_audio)`.
The source sets `audio_recording = True` only inside `if include_audio:`;
with `include_audio` false the flag keeps its previous value. -/
def gui_start_collection (c : GuiEntropyCollector) (now : ℚ) (include_audio : Bool) :
    GuiEntropyCollector :=
  let c := { c with collecting := true
                    collection_start_time := some now
                    mouse_movement_start := none
                    last_mouse_activity := none
                    total_active_movement_time := 0 }
  if include_audio = true then { c with audio_recording := true } else c

/-- `entropy_rng_gui.py:EntropyCollector.stop_collection`.  When the stream
handle is non-None the source runs `stop_stream()` and `close()` on it; the
handle itself is never cleared, so the release path runs on every stop call. -/
def gui_stop_collection (c : GuiEntropyCollector) : GuiEntropyCollector :=
  let c := { c with collecting := false, audio_recording := false }
  if c.audio_stream.isSome then
    { c with audio_stream_release_count := c.audio_stream_release_count + 1 }
  else c

/-- `entropy_rng_gui.py:EntropyCollector.get_entropy_pool`: mouse, CPU, then
audio samples. -/
def gui_get_entropy_pool (c : GuiEntropyCollector) : List Nat :=
  c.mouse_entropy ++ c.cpu_entropy ++ c.audio_entropy

/-- `entropy_rng_gui.py:EntropyCollector.get_mouse_movement_duration`. -/
def gui_get_mouse_movement_duration (c : GuiEntropyCollector) (now : ℚ) : ℚ :=
  match c.last_mouse_activity with
  | none => 0
  | some last =>
      let accumulated_time := c.total_active_movement_time
      if now - last ≤ c.mouse_activity_timeout then accumulated_time + (now - last)
      else accumulated_time

/-- `entropy_rng_gui.py:EntropyCollector.has_sufficient_entropy(required_duration,
min_mouse_samples, min_audio_samples)` (source defaults: 30, 300 and 100).
The audio conjunct does not consult the `audio_recording` flag. -/
def gui_has_sufficient_entropy (c : GuiEntropyCollector) (now : ℚ)
    (required_duration : ℚ) (min_mouse_samples min_audio_samples : Nat) : Bool :=
  decide (required_duration ≤ gui_get_mouse_movement_duration c now) &&
  decide (min_mouse_samples ≤ c.mouse_entropy.length) &&
  decide (min_audio_samples ≤ c.audio_entropy.length)

/-! ## The GUI generator (`entropy_rng_gui.py`, class `EntropyRNG`) -/

/-- State of `entropy_rng_gui.py:EntropyRNG`. -/
structure GuiEntropyRNG where
  collector : GuiEntropyCollector
  generated_numbers : List Nat
deriving DecidableEq

/-- `entropy_rng_gui.py:EntropyRNG.generate_random_numbers(count,
min_entropy_samples)` (source defaults: 24 and 400).  Each loop iteration
reads the clock through `time.time_ns() + i`; the clock is modelled as the
fixed reading `ts` throughout the call. -/
def gui_generate_random_numbers (rng : GuiEntropyRNG) (now : ℚ) (ts : Nat)
    (count : Nat) (min_entropy_samples : Nat) :
    Except GenError (List Nat × GuiEntropyRNG) :=
  if ¬ gui_has_sufficient_entropy rng.collector now 30 300 100 = true then
    .error .insufficientEntropy
  else
    let entropy_pool := gui_get_entropy_pool rng.collector
    if entropy_pool.length < min_entropy_samples then
      .error .insufficientTotalEntropy
    else
      let numbers := (List.range count).foldl (fun numbers i =>
        let data := decimalBytes (ts + i) ++ decimalBytes i
        let data := entropy_pool.enum.foldl
          (fun h p => h ++ toBytes4BE (p.2 ^^^ i ^^^ p.1)) data
        let hash_bytes := sha256 data
        let random_int := int_from_bytes_be (hash_bytes.take 4)
        numbers ++ [random_int % 2048]) []
      .ok (numbers, { rng with generated_numbers := rng.generated_numbers ++ numbers })

/-- `entropy_rng_gui.py:EntropyRNG.get_entropy_status`: the returned dict, as
a key-value list. -/
def gui_get_entropy_status (rng : GuiEntropyRNG) : List (String × Nat) :=
  let mouse_count := rng.collector.mouse_entropy.length
  let cpu_count := rng.collector.cpu_entropy.length
  let audio_count := rng.collector.audio_entropy.length
  [("mouse_samples", mouse_count),
   ("cpu_samples", cpu_count),
   ("audio_samples", audio_count),
   ("total_samples", mouse_count + cpu_count + audio_count)]

/-! ## Claim-side formulas (transcribed from the specification wording) -/

/-- Value described by the spec for `generate_one`: the SHA-256 digest of the
decimal string of the timestamp followed by every pool sample as 4 bytes
big-endian, first 4 digest bytes big-endian, reduced modulo 2048. -/
def mixed_value_spec (ts : Nat) (pool : List Nat) : Nat :=
  int_from_bytes_be ((sha256 (decimalBytes ts ++ (pool.map toBytes4BE).flatten)).take 4) % 2048

/-- Value described by the spec for output index `i` of `generate_many`: a
fresh hash state fed the decimal encodings of `timestamp + i` and of `i`, then
every sample `s` at pool position `j` as `s XOR i XOR j` in 4 bytes
big-endian; first 4 digest bytes big-endian, reduced modulo 2048. -/
def mixed_value_many_spec (ts : Nat) (pool : List Nat) (i : Nat) : Nat :=
  int_from_bytes_be ((sha256 (decimalBytes (ts + i) ++ decimalBytes i ++
    (pool.enum.map (fun p => toBytes4BE (p.2 ^^^ i ^^^ p.1))).flatten)).take 4) % 2048

/-! ## Helper lemmas -/

theorem foldl_append_flatten {α β : Type} (f : α → List β) :
    ∀ (l : List α) (init : List β),
      l.foldl (fun h x => h ++ f x) init = init ++ (l.map f).flatten
  | [], init => by simp
  | x :: l, init => by
      simp [foldl_append_flatten f l, List.append_assoc]

theorem flatten_map_singleton {α β : Type} (f : α → β) (l : List α) :
    (l.map (fun x => [f x])).flatten = l.map f := by
  induction l with
  | nil => simp
  | cons x l ih => simp [ih]

/-- Success path of `generate_random_number`: under the two gates the call
returns the spec-side mixed value and appends it to the history. -/
theorem generate_random_number_ok (rng : EntropyRNG) (now : ℚ) (ts : Nat)
    (h1 : has_sufficient_entropy rng.collector now 30 300 = true)
    (h2 : 300 ≤ (get_entropy_pool rng.collector).length) :
    generate_random_number rng now ts 300 =
      .ok (mixed_value_spec ts (get_entropy_pool rng.collector),
           { rng with generated_numbers := rng.generated_numbers ++
               [mixed_value_spec ts (get_entropy_pool rng.collector)] }) := by
  unfold generate_random_number
  rw [if_neg (by simp [h1])]
  rw [if_neg (by omega)]
  simp only [mixed_value_spec, foldl_append_flatten]

theorem mixed_value_many_spec_eta (ts : Nat) (pool : List Nat) :
    mixed_value_many_spec ts pool = fun i =>
      int_from_bytes_be ((sha256 (decimalBytes (ts + i) ++ (decimalBytes i ++
        ((pool.enum.map fun p => toBytes4BE (p.2 ^^^ i ^^^ p.1)).flatten)))).take 4) % 2048 := by
  funext i
  simp [mixed_value_many_spec, List.append_assoc]

/-- Success path of `gui_generate_random_numbers`: under the two gates the
call returns the list of spec-side per-index mixed values. -/
theorem gui_generate_random_numbers_ok (rng : GuiEntropyRNG) (now : ℚ) (ts : Nat)
    (count : Nat)
    (h1 : gui_has_sufficient_entropy rng.collector now 30 300 100 = true)
    (h2 : 400 ≤ (gui_get_entropy_pool rng.collector).length) :
    gui_generate_random_numbers rng now ts count 400 =
      .ok ((List.range count).map
             (mixed_value_many_spec ts (gui_get_entropy_pool rng.collector)),
           { rng with generated_numbers := rng.generated_numbers ++
               ((List.range count).map
                 (mixed_value_many_spec ts (gui_get_entropy_pool rng.collector))) }) := by
  unfold gui_generate_random_numbers
  rw [if_neg (by simp [h1])]
  rw [if_neg (by omega)]
  simp only [mixed_value_many_spec_eta, foldl_append_flatten, flatten_map_singleton,
             List.append_assoc, List.nil_append]

/-! ## Deque lemmas -/

theorem deque_append_eq_lastN (cap : Nat) (xs : List Nat) (v : Nat) :
    deque_append cap xs v = lastN cap (xs ++ [v]) := by
  unfold deque_append lastN
  by_cases h : xs.length < cap
  · rw [if_pos h]
    rw [show (xs ++ [v]).length - cap = 0 by simp; omega]
    simp
  · rw [if_neg h]
    simp

theorem lastN_length_le (cap : Nat) (l : List Nat) : (lastN cap l).length ≤ cap := by
  unfold lastN
  simp
  omega

theorem lastN_of_length_le (cap : Nat) (l : List Nat) (h : l.length ≤ cap) :
    lastN cap l = l := by
  unfold lastN
  rw [show l.length - cap = 0 by omega]
  simp

theorem lastN_append_lastN (cap : Nat) (l m : List Nat) :
    lastN cap (lastN cap l ++ m) = lastN cap (l ++ m) := by
  unfold lastN
  rw [show l.drop (l.length - cap) ++ m = (l ++ m).drop (l.length - cap) from
    (List.drop_append_of_le_length (by omega)).symm]
  rw [List.drop_drop]
  congr 1
  simp
  omega

theorem foldl_deque_append (cap : Nat) :
    ∀ (vs xs : List Nat), xs.length ≤ cap →
      vs.foldl (deque_append cap) xs = lastN cap (xs ++ vs)
  | [], xs => by
      intro h
      simp [lastN_of_length_le cap xs h]
  | v :: vs, xs => by
      intro h
      rw [List.foldl_cons]
      rw [foldl_deque_append cap vs (deque_append cap xs v)
        (by rw [deque_append_eq_lastN]; exact lastN_length_le cap _)]
      rw [deque_append_eq_lastN, lastN_append_lastN]
      simp

/-! ## Activity-tracker lemmas -/

/-- A pointer event: coordinates, nanosecond timestamp, and clock seconds. -/
def processEvents (c : EntropyCollector) (events : List (Nat × Nat × Nat × ℚ)) :
    EntropyCollector :=
  events.foldl (fun c e => on_mouse_move c e.1 e.2.1 e.2.2.1 e.2.2.2) c

/-- The clock-seconds component of a pointer event. -/
def eventTime (e : Nat × Nat × Nat × ℚ) : ℚ := e.2.2.2

theorem on_mouse_move_collecting (c : EntropyCollector) (x y timestamp : Nat) (now : ℚ) :
    (on_mouse_move c x y timestamp now).collecting = c.collecting := by
  unfold on_mouse_move
  split <;> rfl

theorem on_mouse_move_timeout (c : EntropyCollector) (x y timestamp : Nat) (now : ℚ) :
    (on_mouse_move c x y timestamp now).mouse_activity_timeout = c.mouse_activity_timeout := by
  unfold on_mouse_move
  split <;> rfl

theorem on_mouse_move_last (c : EntropyCollector) (x y timestamp : Nat) (now : ℚ)
    (hc : c.collecting = true) :
    (on_mouse_move c x y timestamp now).last_mouse_activity = some now := by
  unfold on_mouse_move
  rw [if_pos hc]

theorem on_mouse_move_total (c : EntropyCollector) (x y timestamp : Nat) (now : ℚ)
    (hc : c.collecting = true) :
    (on_mouse_move c x y timestamp now).total_active_movement_time =
      match c.last_mouse_activity with
      | none => c.total_active_movement_time
      | some prior =>
          if now - prior ≤ c.mouse_activity_timeout then
            c.total_active_movement_time + (now - prior)
          else c.total_active_movement_time := by
  unfold on_mouse_move
  rw [if_pos hc]
  cases c.last_mouse_activity <;> rfl

/-- Single-step monotonicity of the accumulated active time, for an event not
earlier than the recorded previous activity. -/
theorem on_mouse_move_total_mono (c : EntropyCollector) (x y timestamp : Nat) (now : ℚ)
    (hc : c.collecting = true)
    (hprior : ∀ prior, c.last_mouse_activity = some prior → prior ≤ now) :
    c.total_active_movement_time ≤
      (on_mouse_move c x y timestamp now).total_active_movement_time := by
  rw [on_mouse_move_total c x y timestamp now hc]
  cases hl : c.last_mouse_activity with
  | none => exact le_refl _
  | some prior =>
      dsimp
      split
      · have := hprior prior hl
        linarith
      · exact le_refl _

/-- Accumulated active time is monotone along any event sequence whose clock
values are non-decreasing and not earlier than the recorded last activity. -/
theorem processEvents_total_mono :
    ∀ (events : List (Nat × Nat × Nat × ℚ)) (c : EntropyCollector),
      c.collecting = true →
      List.Chain' (· ≤ ·) (c.last_mouse_activity.toList ++ events.map eventTime) →
      c.total_active_movement_time ≤ (processEvents c events).total_active_movement_time
  | [], c => by
      intro _ _
      exact le_refl _
  | e :: events, c => by
      intro hc hchain
      have hstep : c.total_active_movement_time ≤
          (on_mouse_move c e.1 e.2.1 e.2.2.1 e.2.2.2).total_active_movement_time := by
        apply on_mouse_move_total_mono c _ _ _ _ hc
        intro prior hl
        rw [hl] at hchain
        simp [eventTime] at hchain
        exact hchain.1
      have hrest : (on_mouse_move c e.1 e.2.1 e.2.2.1 e.2.2.2).total_active_movement_time ≤
          (processEvents (on_mouse_move c e.1 e.2.1 e.2.2.1 e.2.2.2) events).total_active_movement_time := by
        apply processEvents_total_mono events
        · rw [on_mouse_move_collecting]
          exact hc
        · rw [on_mouse_move_last c _ _ _ _ hc]
          cases hl : c.last_mouse_activity with
          | none =>
              rw [hl] at hchain
              simpa [eventTime] using hchain
          | some prior =>
              rw [hl] at hchain
              simp only [Option.toList, List.cons_append, List.map_cons] at hchain ⊢
              exact hchain.tail
      calc c.total_active_movement_time ≤ _ := hstep
        _ ≤ _ := hrest

/-! ## Concrete states used by witnesses and counterexamples -/

/-- Concrete CLI collector: 300 mouse samples, 30 accumulated active seconds,
last pointer event at clock reading 0. -/
def witnessCollector : EntropyCollector :=
  { mouse_entropy := List.replicate 300 0
    cpu_entropy := []
    collecting := true
    entropy_queue := []
    collection_start_time := some 0
    mouse_movement_start := some 0
    last_mouse_activity := some 0
    total_active_movement_time := 30
    mouse_activity_timeout := 2 }

/-- Concrete CLI generator state over `witnessCollector`. -/
def witnessRNG : EntropyRNG :=
  { collector := witnessCollector, generated_numbers := [] }

/-- Concrete GUI collector: 300 mouse samples, 100 audio samples, 30
accumulated active seconds, audio enabled with an open stream. -/
def witnessGuiCollector : GuiEntropyCollector :=
  { mouse_entropy := List.replicate 300 0
    cpu_entropy := []
    audio_entropy := List.replicate 100 0
    collecting := true
    entropy_queue := []
    collection_start_time := some 0
    mouse_movement_start := some 0
    last_mouse_activity := some 0
    total_active_movement_time := 30
    mouse_activity_timeout := 2
    audio_recording := true
    audio_stream := some ()
    audio_stream_release_count := 0 }

/-- Concrete GUI generator state over `witnessGuiCollector`. -/
def witnessGuiRNG : GuiEntropyRNG :=
  { collector := witnessGuiCollector, generated_numbers := [] }

/-! ## Claims -/

/-- C1: for every pool snapshot and every timestamp, a `generate_one` call
that passes its gates computes its result by hashing (SHA-256) the decimal
string encoding of the timestamp followed by every sample of the snapshot in
order as a fixed-width 4-byte big-endian encoding, interpreting the first 4
digest bytes as a big-endian unsigned 32-bit integer, reducing modulo 2048;
the returned value is recorded in the history and is below 2048. -/
theorem c1_generate_one_mixing (rng : EntropyRNG) (now : ℚ) (ts : Nat)
    (h1 : has_sufficient_entropy rng.collector now 30 300 = true)
    (h2 : 300 ≤ (get_entropy_pool rng.collector).length) :
    generate_random_number rng now ts 300 =
      .ok (mixed_value_spec ts (get_entropy_pool rng.collector),
           { rng with generated_numbers := rng.generated_numbers ++
               [mixed_value_spec ts (get_entropy_pool rng.collector)] }) ∧
    mixed_value_spec ts (get_entropy_pool rng.collector) < 2048 :=
  ⟨generate_random_number_ok rng now ts h1 h2,
   by unfold mixed_value_spec; exact Nat.mod_lt _ (by norm_num)⟩

set_option maxRecDepth 20000 in
/-- Witness for C1 at a concrete collector state and timestamp. -/
theorem c1_generate_one_mixing_witness :
    has_sufficient_entropy witnessRNG.collector 0 30 300 = true ∧
    300 ≤ (get_entropy_pool witnessRNG.collector).length ∧
    (generate_random_number witnessRNG 0 12345 300 =
      .ok (mixed_value_spec 12345 (get_entropy_pool witnessRNG.collector),
           { witnessRNG with generated_numbers := witnessRNG.generated_numbers ++
               [mixed_value_spec 12345 (get_entropy_pool witnessRNG.collector)] }) ∧
     mixed_value_spec 12345 (get_entropy_pool witnessRNG.collector) < 2048) :=
  ⟨by with_unfolding_all rfl, by decide,
   c1_generate_one_mixing witnessRNG 0 12345 (by with_unfolding_all rfl) (by decide)⟩

/-- C2: `generate_one` and `generate_many` fail (with the recoverable
insufficient-entropy error) exactly when the sufficiency policy is false or
the concatenated pool snapshot is below the minimum total sample count (300
in single-number mode, 400 in batch mode); otherwise they succeed. -/
theorem c2_generation_failure_iff :
    (∀ (rng : EntropyRNG) (now : ℚ) (ts : Nat),
       (generate_random_number rng now ts 300).isOk =
         (has_sufficient_entropy rng.collector now 30 300 &&
          decide (300 ≤ (get_entropy_pool rng.collector).length))) ∧
    (∀ (rng : GuiEntropyRNG) (now : ℚ) (ts count : Nat),
       (gui_generate_random_numbers rng now ts count 400).isOk =
         (gui_has_sufficient_entropy rng.collector now 30 300 100 &&
          decide (400 ≤ (gui_get_entropy_pool rng.collector).length))) := by
  constructor
  · intro rng now ts
    unfold generate_random_number
    by_cases h1 : has_sufficient_entropy rng.collector now 30 300 = true
    · rw [if_neg (by simp [h1])]
      by_cases h2 : (get_entropy_pool rng.collector).length < 300
      · rw [if_pos h2]
        simp [Except.isOk, Except.toBool, h1, h2]
      · rw [if_neg h2]
        simp [Except.isOk, Except.toBool, h1]
        omega
    · rw [if_pos (by simp [h1])]
      simp [Except.isOk, Except.toBool]
      intro hc
      exact absurd hc h1
  · intro rng now ts count
    unfold gui_generate_random_numbers
    by_cases h1 : gui_has_sufficient_entropy rng.collector now 30 300 100 = true
    · rw [if_neg (by simp [h1])]
      by_cases h2 : (gui_get_entropy_pool rng.collector).length < 400
      · rw [if_pos h2]
        simp [Except.isOk, Except.toBool, h1, h2]
      · rw [if_neg h2]
        simp [Except.isOk, Except.toBool, h1]
        omega
    · rw [if_pos (by simp [h1])]
      simp [Except.isOk, Except.toBool]
      intro hc
      exact absurd hc h1

/-- Elements of a list of values below 2048 are below 2048 under `getD` with
default 0. -/
theorem getD_lt_2048 (l : List Nat) (hl : ∀ x ∈ l, x < 2048) (i : Nat) :
    l.getD i 0 < 2048 := by
  rcases h : l[i]? with _ | x
  · simp [List.getD, h]
  · rw [List.getD_eq_getElem?_getD, h]
    exact hl x (List.getElem?_mem h)

/-- C3: for every count, pool snapshot and timestamp, a `generate_many` call
that passes its gates returns exactly `count` values; the value at output
index `i` hashes the decimal encodings of `timestamp + i` and of `i` followed
by every sample `s` at snapshot position `j` as `s XOR i XOR j` in 4 bytes
big-endian in pool order, reducing the first 4 digest bytes modulo 2048, and
every returned value is below 2048. -/
theorem c3_generate_many_batch (rng : GuiEntropyRNG) (now : ℚ) (ts count : Nat)
    (h1 : gui_has_sufficient_entropy rng.collector now 30 300 100 = true)
    (h2 : 400 ≤ (gui_get_entropy_pool rng.collector).length) :
    gui_generate_random_numbers rng now ts count 400 =
      .ok ((List.range count).map
             (mixed_value_many_spec ts (gui_get_entropy_pool rng.collector)),
           { rng with generated_numbers := rng.generated_numbers ++
               ((List.range count).map
                 (mixed_value_many_spec ts (gui_get_entropy_pool rng.collector))) }) ∧
    ((List.range count).map
       (mixed_value_many_spec ts (gui_get_entropy_pool rng.collector))).length = count ∧
    ∀ i : Nat, ((List.range count).map
       (mixed_value_many_spec ts (gui_get_entropy_pool rng.collector))).getD i 0 < 2048 := by
  refine ⟨gui_generate_random_numbers_ok rng now ts count h1 h2, by simp, ?_⟩
  apply getD_lt_2048
  intro x hx
  rcases List.mem_map.mp hx with ⟨i, _, rfl⟩
  unfold mixed_value_many_spec
  exact Nat.mod_lt _ (by norm_num)

set_option maxRecDepth 20000 in
/-- Witness for C3 at a concrete GUI collector state, timestamp and count. -/
theorem c3_generate_many_batch_witness :
    gui_has_sufficient_entropy witnessGuiRNG.collector 0 30 300 100 = true ∧
    400 ≤ (gui_get_entropy_pool witnessGuiRNG.collector).length ∧
    (gui_generate_random_numbers witnessGuiRNG 0 777 2 400 =
      .ok ((List.range 2).map
             (mixed_value_many_spec 777 (gui_get_entropy_pool witnessGuiRNG.collector)),
           { witnessGuiRNG with generated_numbers := witnessGuiRNG.generated_numbers ++
               ((List.range 2).map
                 (mixed_value_many_spec 777 (gui_get_entropy_pool witnessGuiRNG.collector))) }) ∧
     ((List.range 2).map
        (mixed_value_many_spec 777 (gui_get_entropy_pool witnessGuiRNG.collector))).length = 2 ∧
     ∀ i : Nat, ((List.range 2).map
        (mixed_value_many_spec 777 (gui_get_entropy_pool witnessGuiRNG.collector))).getD i 0 < 2048) :=
  ⟨by with_unfolding_all rfl, by decide,
   c3_generate_many_batch witnessGuiRNG 0 777 2 (by with_unfolding_all rfl) (by decide)⟩

/-- C8: the `generate_one` mixing is deterministic in the snapshot and the
timestamp: a second call at the same clock readings against the unchanged
pool returns the same value as the first. -/
theorem c8_generate_one_deterministic (rng : EntropyRNG) (now : ℚ) (ts : Nat)
    (h1 : has_sufficient_entropy rng.collector now 30 300 = true)
    (h2 : 300 ≤ (get_entropy_pool rng.collector).length) :
    ∃ (v : Nat) (rng1 rng2 : EntropyRNG),
      generate_random_number rng now ts 300 = .ok (v, rng1) ∧
      generate_random_number rng1 now ts 300 = .ok (v, rng2) :=
  ⟨mixed_value_spec ts (get_entropy_pool rng.collector), _, _,
   generate_random_number_ok rng now ts h1 h2,
   generate_random_number_ok _ now ts h1 h2⟩

set_option maxRecDepth 20000 in
/-- Witness for C8 at a concrete collector state and timestamp. -/
theorem c8_generate_one_deterministic_witness :
    has_sufficient_entropy witnessRNG.collector 3 30 300 = true ∧
    300 ≤ (get_entropy_pool witnessRNG.collector).length ∧
    (∃ (v : Nat) (rng1 rng2 : EntropyRNG),
      generate_random_number witnessRNG 3 999 300 = .ok (v, rng1) ∧
      generate_random_number rng1 3 999 300 = .ok (v, rng2)) :=
  ⟨by with_unfolding_all rfl, by decide,
   c8_generate_one_deterministic witnessRNG 3 999 (by with_unfolding_all rfl) (by decide)⟩

/-- C10: whenever the sufficiency predicate holds at the default thresholds
the concatenated snapshot meets the generation minimum (300 in single-number
mode, 400 in batch mode), so the secondary insufficient-total-entropy branch
is unreachable under the sufficiency precondition. -/
theorem c10_sufficiency_implies_minimum :
    (∀ (c : EntropyCollector) (now : ℚ),
       has_sufficient_entropy c now 30 300 = true →
       300 ≤ (get_entropy_pool c).length) ∧
    (∀ (c : GuiEntropyCollector) (now : ℚ),
       gui_has_sufficient_entropy c now 30 300 100 = true →
       400 ≤ (gui_get_entropy_pool c).length) ∧
    (∀ (rng : EntropyRNG) (now : ℚ) (ts : Nat),
       has_sufficient_entropy rng.collector now 30 300 = true →
       generate_random_number rng now ts 300 ≠ .error .insufficientTotalEntropy) ∧
    (∀ (rng : GuiEntropyRNG) (now : ℚ) (ts count : Nat),
       gui_has_sufficient_entropy rng.collector now 30 300 100 = true →
       gui_generate_random_numbers rng now ts count 400 ≠ .error .insufficientTotalEntropy) := by
  have hcli : ∀ (c : EntropyCollector) (now : ℚ),
      has_sufficient_entropy c now 30 300 = true → 300 ≤ (get_entropy_pool c).length := by
    intro c now h
    simp [has_sufficient_entropy] at h
    simp [get_entropy_pool]
    omega
  have hgui : ∀ (c : GuiEntropyCollector) (now : ℚ),
      gui_has_sufficient_entropy c now 30 300 100 = true →
      400 ≤ (gui_get_entropy_pool c).length := by
    intro c now h
    simp [gui_has_sufficient_entropy] at h
    simp [gui_get_entropy_pool]
    omega
  refine ⟨hcli, hgui, ?_, ?_⟩
  · intro rng now ts h1
    rw [generate_random_number_ok rng now ts h1 (hcli _ now h1)]
    simp
  · intro rng now ts count h1
    rw [gui_generate_random_numbers_ok rng now ts count h1 (hgui _ now h1)]
    simp

set_option maxRecDepth 20000 in
/-- Witness for C10 at concrete collector states. -/
theorem c10_sufficiency_implies_minimum_witness :
    has_sufficient_entropy witnessCollector 0 30 300 = true ∧
    gui_has_sufficient_entropy witnessGuiCollector 0 30 300 100 = true ∧
    300 ≤ (get_entropy_pool witnessCollector).length ∧
    400 ≤ (gui_get_entropy_pool witnessGuiCollector).length ∧
    generate_random_number witnessRNG 0 5 300 ≠ .error .insufficientTotalEntropy ∧
    gui_generate_random_numbers witnessGuiRNG 0 5 3 400 ≠ .error .insufficientTotalEntropy :=
  ⟨by with_unfolding_all rfl, by with_unfolding_all rfl,
   c10_sufficiency_implies_minimum.1 witnessCollector 0 (by with_unfolding_all rfl),
   c10_sufficiency_implies_minimum.2.1 witnessGuiCollector 0 (by with_unfolding_all rfl),
   c10_sufficiency_implies_minimum.2.2.1 witnessRNG 0 5 (by with_unfolding_all rfl),
   c10_sufficiency_implies_minimum.2.2.2 witnessGuiRNG 0 5 3 (by with_unfolding_all rfl)⟩

/-- GUI collector reachable by `gui_start_collection` with `include_audio`
false followed by pointer activity: audio collection is disabled, the audio
pool is empty, the pointer thresholds (30 seconds of activity, 300 mouse
samples) are met. -/
def audioDisabledCollector : GuiEntropyCollector :=
  { mouse_entropy := List.replicate 300 0
    cpu_entropy := []
    audio_entropy := []
    collecting := true
    entropy_queue := []
    collection_start_time := some 0
    mouse_movement_start := some 0
    last_mouse_activity := some 0
    total_active_movement_time := 30
    mouse_activity_timeout := 2
    audio_recording := false
    audio_stream := none
    audio_stream_release_count := 0 }

set_option maxRecDepth 20000 in
/-- C4 counterexample: with the audio source disabled (`audio_recording`
false) and both pointer thresholds met, the claim says the predicate holds
because the audio pool plays no role; the GUI code checks the audio conjunct
unconditionally and returns false. -/
theorem c4_sufficiency_audio_counterexample :
    audioDisabledCollector.audio_recording = false ∧
    30 ≤ gui_get_mouse_movement_duration audioDisabledCollector 0 ∧
    300 ≤ audioDisabledCollector.mouse_entropy.length ∧
    gui_has_sufficient_entropy audioDisabledCollector 0 30 300 100 = false :=
  ⟨rfl, by with_unfolding_all rfl, by decide, by with_unfolding_all rfl⟩

/-- C4 amended: the GUI sufficiency predicate holds exactly when the active
duration reaches 30 s, the pointer pool holds at least 300 samples, and the
audio pool holds at least 100 samples, regardless of whether audio collection
is enabled; the CLI variant has no audio pool and no audio conjunct. -/
theorem c4_sufficiency_amended :
    (∀ (c : GuiEntropyCollector) (now : ℚ),
       gui_has_sufficient_entropy c now 30 300 100 = true ↔
         (30 ≤ gui_get_mouse_movement_duration c now ∧
          300 ≤ c.mouse_entropy.length ∧ 100 ≤ c.audio_entropy.length)) ∧
    (∀ (c : EntropyCollector) (now : ℚ),
       has_sufficient_entropy c now 30 300 = true ↔
         (30 ≤ get_mouse_movement_duration c now ∧ 300 ≤ c.mouse_entropy.length)) := by
  constructor
  · intro c now
    simp [gui_has_sufficient_entropy, and_assoc]
  · intro c now
    simp [has_sufficient_entropy]

/-- C5: along every pointer-event sequence with non-decreasing clock values
the accumulated active time is monotonically non-decreasing; an event whose
gap since the prior event is at most the 2-second timeout adds exactly that
gap, an event whose gap exceeds the timeout adds nothing, and in either case
the last-activity time becomes the event time. -/
theorem c5_activity_duration_semantics :
    (∀ (c : EntropyCollector) (events : List (Nat × Nat × Nat × ℚ)),
       c.collecting = true →
       List.Chain' (· ≤ ·) (c.last_mouse_activity.toList ++ events.map eventTime) →
       c.total_active_movement_time ≤
         (processEvents c events).total_active_movement_time) ∧
    (∀ (c : EntropyCollector) (x y timestamp : Nat) (now : ℚ),
       c.collecting = true → c.mouse_activity_timeout = 2 →
       (on_mouse_move c x y timestamp now).last_mouse_activity = some now ∧
       ∀ prior, c.last_mouse_activity = some prior →
         (now - prior ≤ 2 →
           (on_mouse_move c x y timestamp now).total_active_movement_time =
             c.total_active_movement_time + (now - prior)) ∧
         (2 < now - prior →
           (on_mouse_move c x y timestamp now).total_active_movement_time =
             c.total_active_movement_time)) := by
  refine ⟨fun c events hc hchain => processEvents_total_mono events c hc hchain, ?_⟩
  intro c x y timestamp now hc ht
  refine ⟨on_mouse_move_last c x y timestamp now hc, ?_⟩
  intro prior hprior
  rw [on_mouse_move_total c x y timestamp now hc, hprior] at *
  constructor
  · intro hgap
    dsimp
    rw [if_pos (by rw [ht]; exact hgap)]
  · intro hgap
    dsimp
    rw [if_neg (by rw [ht]; exact not_le.mpr hgap)]

set_option maxRecDepth 20000 in
/-- Witness for C5: two events at clock readings 1 and 2 from a collecting
state whose last activity was at clock 0. -/
theorem c5_activity_duration_semantics_witness :
    witnessCollector.collecting = true ∧
    List.Chain' (· ≤ ·) (witnessCollector.last_mouse_activity.toList ++
      [((0 : Nat), (0 : Nat), (0 : Nat), (1 : ℚ)),
       ((5 : Nat), (6 : Nat), (7 : Nat), (2 : ℚ))].map eventTime) ∧
    witnessCollector.mouse_activity_timeout = 2 ∧
    (witnessCollector.total_active_movement_time ≤
       (processEvents witnessCollector
         [((0 : Nat), (0 : Nat), (0 : Nat), (1 : ℚ)),
          ((5 : Nat), (6 : Nat), (7 : Nat), (2 : ℚ))]).total_active_movement_time) ∧
    ((on_mouse_move witnessCollector 0 0 0 1).last_mouse_activity = some 1 ∧
     ∀ prior, witnessCollector.last_mouse_activity = some prior →
       ((1 : ℚ) - prior ≤ 2 →
         (on_mouse_move witnessCollector 0 0 0 1).total_active_movement_time =
           witnessCollector.total_active_movement_time + ((1 : ℚ) - prior)) ∧
       (2 < (1 : ℚ) - prior →
         (on_mouse_move witnessCollector 0 0 0 1).total_active_movement_time =
           witnessCollector.total_active_movement_time)) :=
  ⟨rfl, by simp [witnessCollector, eventTime, List.chain'_cons], rfl,
   c5_activity_duration_semantics.1 witnessCollector
     [((0 : Nat), (0 : Nat), (0 : Nat), (1 : ℚ)),
      ((5 : Nat), (6 : Nat), (7 : Nat), (2 : ℚ))] rfl
     (by simp [witnessCollector, eventTime, List.chain'_cons]),
   c5_activity_duration_semantics.2 witnessCollector 0 0 0 1 rfl rfl⟩

/-- C6: entropy pools are fixed-capacity (2000) FIFO buffers: any push
sequence from the empty pool leaves at most 2000 entries, a push at capacity
evicts exactly the oldest entry, and any push sequence from the empty pool
leaves exactly the most recent pushes in push order. -/
theorem c6_pool_fifo_bounded :
    (∀ vs : List Nat, (vs.foldl (deque_append 2000) []).length ≤ 2000) ∧
    (∀ (xs : List Nat) (v : Nat), xs.length = 2000 →
       deque_append 2000 xs v = xs.tail ++ [v]) ∧
    (∀ vs : List Nat,
       vs.foldl (deque_append 2000) [] = vs.drop (vs.length - 2000)) := by
  refine ⟨?_, ?_, ?_⟩
  · intro vs
    rw [foldl_deque_append 2000 vs [] (by simp)]
    exact lastN_length_le 2000 _
  · intro xs v hlen
    unfold deque_append
    rw [if_neg (by omega)]
    rw [hlen]
    rw [List.drop_append_of_le_length (by omega)]
    rw [← List.drop_one]
  · intro vs
    rw [foldl_deque_append 2000 vs [] (by simp)]
    unfold lastN
    simp

set_option maxRecDepth 20000 in
/-- Witness for C6: a full pool of 2000 entries and a push sequence of 2000
values. -/
theorem c6_pool_fifo_bounded_witness :
    (List.replicate 2000 (0 : Nat)).length = 2000 ∧
    ((List.replicate 2000 (0 : Nat)).foldl (deque_append 2000) []).length ≤ 2000 ∧
    deque_append 2000 (List.replicate 2000 (0 : Nat)) 7 =
      (List.replicate 2000 (0 : Nat)).tail ++ [7] ∧
    (List.replicate 2000 (0 : Nat)).foldl (deque_append 2000) [] =
      (List.replicate 2000 (0 : Nat)).drop ((List.replicate 2000 (0 : Nat)).length - 2000) :=
  ⟨by simp, c6_pool_fifo_bounded.1 (List.replicate 2000 0),
   c6_pool_fifo_bounded.2.1 (List.replicate 2000 0) 7 (by simp),
   c6_pool_fifo_bounded.2.2 (List.replicate 2000 0)⟩

/-- GUI collector in a collecting session whose audio thread has opened the
exclusive audio stream; the release path has not yet run. -/
def audioOpenCollector : GuiEntropyCollector :=
  { mouse_entropy := []
    cpu_entropy := []
    audio_entropy := []
    collecting := true
    entropy_queue := []
    collection_start_time := some 0
    mouse_movement_start := none
    last_mouse_activity := none
    total_active_movement_time := 0
    mouse_activity_timeout := 2
    audio_recording := true
    audio_stream := some ()
    audio_stream_release_count := 0 }

/-- C7 failing input: `stop_collection` never clears `audio_stream`, so a
second `stop_collection` call runs `stop_stream()` and `close()` on the
already-released stream again: after two stops the release path has run
twice, contradicting the required idempotence of `stop`.  (The pure state
transitions of `start_collection` and of the CLI `stop_collection` are
idempotent; the fault is the unconditional re-release of the audio handle.) -/
theorem c7_stop_collection_double_release :
    (gui_stop_collection audioOpenCollector).audio_stream_release_count = 1 ∧
    (gui_stop_collection (gui_stop_collection audioOpenCollector)).audio_stream_release_count = 2 ∧
    (gui_stop_collection (gui_stop_collection audioOpenCollector)).audio_stream = some () ∧
    stop_collection (stop_collection { initCollector with collecting := true }) =
      stop_collection { initCollector with collecting := true } :=
  ⟨rfl, rfl, rfl, rfl⟩

/-- Fresh CLI generator state (no samples collected yet). -/
def statusRNG : EntropyRNG :=
  { collector := initCollector, generated_numbers := [] }

/-- Fresh GUI generator state (no samples collected yet). -/
def statusGuiRNG : GuiEntropyRNG :=
  { collector := initGuiCollector, generated_numbers := [] }

/-- C9 counterexample: the status record returned by `get_entropy_status`
contains only the per-source sample counts and the total; it has no
`active_duration_seconds` field and no `is_pointer_active` field, in either
variant, contrary to the claim.  (The active duration and the activity flag
are served by the separate read-only queries `get_mouse_movement_duration`
and `is_mouse_currently_active`.) -/
theorem c9_status_fields_counterexample :
    (get_entropy_status statusRNG).lookup "active_duration_seconds" = none ∧
    (get_entropy_status statusRNG).lookup "is_pointer_active" = none ∧
    (gui_get_entropy_status statusGuiRNG).lookup "active_duration_seconds" = none ∧
    (gui_get_entropy_status statusGuiRNG).lookup "is_pointer_active" = none :=
  ⟨rfl, rfl, rfl, rfl⟩

/-- C9 amended: the status query is a pure (read-only) function of the state;
its record carries exactly the per-source sample counts and a total that
always equals their sum; the active duration and the pointer-activity flag
are exposed by the separate read-only queries, not by the status record. -/
theorem c9_status_amended :
    (∀ rng : EntropyRNG,
       get_entropy_status rng =
         [("mouse_samples", rng.collector.mouse_entropy.length),
          ("cpu_samples", rng.collector.cpu_entropy.length),
          ("total_samples", rng.collector.mouse_entropy.length +
            rng.collector.cpu_entropy.length)] ∧
       (get_entropy_status rng).lookup "total_samples" =
         some (rng.collector.mouse_entropy.length + rng.collector.cpu_entropy.length)) ∧
    (∀ rng : GuiEntropyRNG,
       gui_get_entropy_status rng =
         [("mouse_samples", rng.collector.mouse_entropy.length),
          ("cpu_samples", rng.collector.cpu_entropy.length),
          ("audio_samples", rng.collector.audio_entropy.length),
          ("total_samples", rng.collector.mouse_entropy.length +
            rng.collector.cpu_entropy.length + rng.collector.audio_entropy.length)] ∧
       (gui_get_entropy_status rng).lookup "total_samples" =
         some (rng.collector.mouse_entropy.length + rng.collector.cpu_entropy.length +
           rng.collector.audio_entropy.length)) := by
  constructor
  · intro rng
    refine ⟨rfl, ?_⟩
    simp [get_entropy_status, List.lookup]
  · intro rng
    refine ⟨rfl, ?_⟩
    simp [gui_get_entropy_status, List.lookup]
